import Mathlib

/-!
Verification of the Weathr-bot subscription and notification core.

The Python source (src/main.py) defines several functions twice; at module
load the later binding wins for plain functions, and for aiogram command
handlers the first registered handler receives the command.  The embedding
below therefore models the effective definitions:

* `check_weather_alerts` is the later definition (src/main.py:2287-2315),
  which shadows the earlier one at line 460;
* `send_smart_notifications` is the later definition (src/main.py:2261-2285),
  which shadows the hour-filtering one at line 1720;
* `subscribe_command` / `unsubscribe_command` are the first registered
  handlers (src/main.py:1338 and 1437), which are backed by the sqlite
  store (`save_subscription`, `get_user_subscriptions`).

Persistence: every store mutator relevant here — `save_subscription`
(src/main.py:2996), `save_user_preferences_db` (src/main.py:3012),
`save_weather_stats` (src/main.py:3048) and the unsubscribe DELETE
(src/main.py:1461) — executes its SQL on a connection opened by `get_db`
(src/main.py:215-222), which closes the connection in a `finally` without
ever calling `conn.commit()`.  Python's sqlite3 runs in its legacy
implicit-transaction mode, so the transaction opened by the INSERT or
DELETE is rolled back at close: the committed database is unchanged.
Only `init_db` and `save_user_info` commit.  Each such mutator is
therefore embedded twice: a `*_txn` definition giving the state the SQL
builds inside the open transaction, and the function itself, whose
committed effect is the identity.  Reads (`get_user_subscriptions`,
`get_user_preferences_db`, `get_weather_stats`) open fresh connections
and see only committed state, so they are functions of the committed
store.

Numeric weather values (temperatures, wind speeds, precipitation) are
modelled as rationals; preference fields stored in INTEGER columns are
modelled as integers and cast where the code compares them against floats.
-/

/-- Model of the `main` sub-dictionary of an OpenWeatherMap response;
`temp` is optional, mirroring `weather_data.get('main', {}).get('temp')`. -/
structure MainData where
  temp : Option ℚ
deriving DecidableEq, Repr

/-- Model of the `wind` sub-dictionary; `speed` is optional. -/
structure WindData where
  speed : Option ℚ
deriving DecidableEq, Repr

/-- Model of the `rain` / `snow` sub-dictionaries; `oneH` models the
optional `'1h'` entry read via `.get('1h', 0)`. -/
structure PrecipData where
  oneH : Option ℚ
deriving DecidableEq, Repr

/-- A weather snapshot dictionary.  Every top-level key may be absent,
mirroring a raw provider response. -/
structure WeatherData where
  main : Option MainData
  wind : Option WindData
  rain : Option PrecipData
  snow : Option PrecipData
deriving DecidableEq, Repr

/-- `weather_data.get('main', {}).get('temp')` (src/main.py:2292). -/
def WeatherData.tempVal (w : WeatherData) : Option ℚ :=
  w.main.bind MainData.temp

/-- `weather_data.get('wind', {}).get('speed')` (src/main.py:2300). -/
def WeatherData.windVal (w : WeatherData) : Option ℚ :=
  w.wind.bind WindData.speed

/-- The snapshot with every field missing (the empty dictionary). -/
def empty_weather : WeatherData := ⟨none, none, none, none⟩

def heatAlertMsg : String := "🌡 Экстремально высокая температура!"
def coldAlertMsg : String := "❄️ Экстремально низкая температура!"
def stormWindMsg : String := "💨 Штормовое предупреждение: сильный ветер!"
def heavyRainMsg : String := "🌧 Сильный дождь!"
def heavySnowMsg : String := "🌨 Сильный снегопад!"

/-- Temperature check of `check_weather_alerts` on the looked-up value
(src/main.py:2292-2297): `temp > 35` fires the heat alert, `temp < -25`
the cold alert, and an absent temperature fires nothing. -/
def tempAlertOf : Option ℚ → List String
  | some t => if 35 < t then [heatAlertMsg] else if t < -25 then [coldAlertMsg] else []
  | none => []

/-- Wind check on the looked-up value (src/main.py:2300-2302):
`if wind_speed and wind_speed > 15`; Python truthiness makes `None` and
`0` skip the check. -/
def windAlertOf : Option ℚ → List String
  | some s => if s ≠ 0 ∧ 15 < s then [stormWindMsg] else []
  | none => []

/-- Rain check (src/main.py:2305-2308): only consulted when the `rain`
key is present; `weather_data['rain'].get('1h', 0) > 10`. -/
def rainAlertOf : Option PrecipData → List String
  | some r => if 10 < r.oneH.getD 0 then [heavyRainMsg] else []
  | none => []

/-- Snow check (src/main.py:2310-2313): `.get('1h', 0) > 5`. -/
def snowAlertOf : Option PrecipData → List String
  | some s => if 5 < s.oneH.getD 0 then [heavySnowMsg] else []
  | none => []

/-- Temperature branch applied to a snapshot. -/
def tempAlertPart (w : WeatherData) : List String := tempAlertOf w.tempVal

/-- Wind branch applied to a snapshot. -/
def windAlertPart (w : WeatherData) : List String := windAlertOf w.windVal

/-- Rain branch applied to a snapshot. -/
def rainAlertPart (w : WeatherData) : List String := rainAlertOf w.rain

/-- Snow branch applied to a snapshot. -/
def snowAlertPart (w : WeatherData) : List String := snowAlertOf w.snow

/-- The effective alert evaluator `check_weather_alerts`
(src/main.py:2287-2315; it shadows the earlier definition at line 460).
The four checks append their alerts in source order. -/
def check_weather_alerts (w : WeatherData) : List String :=
  tempAlertPart w ++ windAlertPart w ++ rainAlertPart w ++ snowAlertPart w

/-- All alert strings the evaluator can ever emit. -/
def alert_message_pool : List String :=
  [heatAlertMsg, coldAlertMsg, stormWindMsg, heavyRainMsg, heavySnowMsg]

/-- Snapshot with temperature 35, wind 5 and no rain (the input of C3). -/
def snapshot_t35 : WeatherData := ⟨some ⟨some 35⟩, some ⟨some 5⟩, none, none⟩

/-- Snapshot with temperature 36, wind 5 and no rain. -/
def snapshot_t36 : WeatherData := ⟨some ⟨some 36⟩, some ⟨some 5⟩, none, none⟩

lemma windAlertOf_cases (o : Option ℚ) :
    windAlertOf o = [] ∨ windAlertOf o = [stormWindMsg] := by
  rcases o with _ | s
  · exact Or.inl rfl
  · simp only [windAlertOf]
    split_ifs <;> [exact Or.inr rfl; exact Or.inl rfl]

lemma rainAlertOf_cases (o : Option PrecipData) :
    rainAlertOf o = [] ∨ rainAlertOf o = [heavyRainMsg] := by
  rcases o with _ | r
  · exact Or.inl rfl
  · simp only [rainAlertOf]
    split_ifs <;> [exact Or.inr rfl; exact Or.inl rfl]

lemma snowAlertOf_cases (o : Option PrecipData) :
    snowAlertOf o = [] ∨ snowAlertOf o = [heavySnowMsg] := by
  rcases o with _ | s
  · exact Or.inl rfl
  · simp only [snowAlertOf]
    split_ifs <;> [exact Or.inr rfl; exact Or.inl rfl]

lemma heatAlertMsg_not_mem_rest (w : WeatherData) :
    heatAlertMsg ∉ windAlertPart w ++ rainAlertPart w ++ snowAlertPart w := by
  unfold windAlertPart rainAlertPart snowAlertPart
  rcases windAlertOf_cases w.windVal with hw | hw <;>
    rcases rainAlertOf_cases w.rain with hr | hr <;>
      rcases snowAlertOf_cases w.snow with hs | hs <;>
        rw [hw, hr, hs] <;> decide

lemma coldAlertMsg_not_mem_rest (w : WeatherData) :
    coldAlertMsg ∉ windAlertPart w ++ rainAlertPart w ++ snowAlertPart w := by
  unfold windAlertPart rainAlertPart snowAlertPart
  rcases windAlertOf_cases w.windVal with hw | hw <;>
    rcases rainAlertOf_cases w.rain with hr | hr <;>
      rcases snowAlertOf_cases w.snow with hs | hs <;>
        rw [hw, hr, hs] <;> decide

/-- C3 (counterexample): the claim asserts the evaluator fires a heat
warning exactly above 30 °C, so a snapshot at 35 °C should yield exactly
one heat warning; the effective `check_weather_alerts` uses the strict
threshold `temp > 35` and yields no alert at all at 35 °C. -/
theorem c3_counterexample : check_weather_alerts snapshot_t35 = [] := by decide

/-- C3 (amended): the effective evaluator fires the heat warning exactly
when `temp > 35` and the cold warning exactly when `temp < -25`,
independent of user preference; at temperature 36 with wind 5 and no rain
it yields exactly the heat warning and no wind or rain messages. -/
theorem c3_amended_thresholds (w : WeatherData) (t : ℚ)
    (h : w.tempVal = some t) :
    (heatAlertMsg ∈ check_weather_alerts w ↔ 35 < t) ∧
    (coldAlertMsg ∈ check_weather_alerts w ↔ t < -25) ∧
    check_weather_alerts snapshot_t36 = [heatAlertMsg] := by
  refine ⟨?_, ?_, by decide⟩
  · unfold check_weather_alerts
    rw [List.append_assoc, List.append_assoc, List.mem_append]
    have hrest := heatAlertMsg_not_mem_rest w
    rw [List.append_assoc] at hrest
    unfold tempAlertPart
    rw [h]
    simp only [tempAlertOf]
    constructor
    · rintro (hm | hm)
      · split_ifs at hm with h1 h2
        · exact h1
        · exact absurd hm (by decide)
        · exact absurd hm (by decide)
      · exact absurd hm hrest
    · intro ht
      left
      rw [if_pos ht]
      exact List.mem_singleton.mpr rfl
  · unfold check_weather_alerts
    rw [List.append_assoc, List.append_assoc, List.mem_append]
    have hrest := coldAlertMsg_not_mem_rest w
    rw [List.append_assoc] at hrest
    unfold tempAlertPart
    rw [h]
    simp only [tempAlertOf]
    constructor
    · rintro (hm | hm)
      · split_ifs at hm with h1 h2
        · exact absurd hm (by decide)
        · exact h2
        · exact absurd hm (by decide)
      · exact absurd hm hrest
    · intro ht
      have h1 : ¬ (35 < t) := by linarith
      rw [if_neg h1, if_pos ht]
      exact Or.inl (List.mem_singleton.mpr rfl)

/-- Witness for C3's amended theorem at the concrete snapshot with
temperature 36. -/
theorem c3_amended_witness :
    (heatAlertMsg ∈ check_weather_alerts snapshot_t36 ↔ 35 < (36 : ℚ)) ∧
    (coldAlertMsg ∈ check_weather_alerts snapshot_t36 ↔ (36 : ℚ) < -25) ∧
    check_weather_alerts snapshot_t36 = [heatAlertMsg] :=
  c3_amended_thresholds snapshot_t36 36 (by decide)

lemma tempAlertOf_cases (o : Option ℚ) :
    tempAlertOf o = [] ∨ tempAlertOf o = [heatAlertMsg] ∨ tempAlertOf o = [coldAlertMsg] := by
  rcases o with _ | t
  · exact Or.inl rfl
  · simp only [tempAlertOf]
    split_ifs <;> [exact Or.inr (Or.inl rfl); exact Or.inr (Or.inr rfl); exact Or.inl rfl]

lemma tempAlertPart_pool (w : WeatherData) :
    (tempAlertPart w).all (fun m => alert_message_pool.contains m) = true := by
  unfold tempAlertPart
  rcases tempAlertOf_cases w.tempVal with h | h | h <;> rw [h] <;> decide

lemma windAlertPart_pool (w : WeatherData) :
    (windAlertPart w).all (fun m => alert_message_pool.contains m) = true := by
  unfold windAlertPart
  rcases windAlertOf_cases w.windVal with h | h <;> rw [h] <;> decide

lemma rainAlertPart_pool (w : WeatherData) :
    (rainAlertPart w).all (fun m => alert_message_pool.contains m) = true := by
  unfold rainAlertPart
  rcases rainAlertOf_cases w.rain with h | h <;> rw [h] <;> decide

lemma snowAlertPart_pool (w : WeatherData) :
    (snowAlertPart w).all (fun m => alert_message_pool.contains m) = true := by
  unfold snowAlertPart
  rcases snowAlertOf_cases w.snow with h | h <;> rw [h] <;> decide

/-- C10: on every snapshot dictionary, including ones missing the `main`,
`wind`, `rain` or `snow` keys entirely, the effective `check_weather_alerts`
returns a list drawn from the fixed pool of warning strings (it is a total
function, so it never raises), and on the empty snapshot it returns the
empty list. -/
theorem c10_check_weather_alerts_safe :
    (∀ w : WeatherData,
      (check_weather_alerts w).all (fun m => alert_message_pool.contains m) = true) ∧
    check_weather_alerts empty_weather = [] := by
  constructor
  · intro w
    unfold check_weather_alerts
    simp only [List.all_append, Bool.and_eq_true]
    exact ⟨⟨⟨tempAlertPart_pool w, windAlertPart_pool w⟩, rainAlertPart_pool w⟩,
      snowAlertPart_pool w⟩
  · decide

/-- A row of the `user_preferences` table (src/init_db.py:24-32, and the
dict shape used by `save_user_preferences_db` / `get_user_preferences_db`,
src/main.py:3012-3046). -/
structure Preferences where
  notification_time : String
  temp_min : Int
  temp_max : Int
  wind_threshold : Int
  rain_alerts : Bool
  activities : List String
deriving DecidableEq, Repr

/-- The default preference record created on first use
(src/main.py:1388-1394). -/
def default_preferences : Preferences :=
  { notification_time := "09:00", temp_min := 15, temp_max := 25,
    wind_threshold := 10, rain_alerts := true, activities := [] }

/-- The `user_preferences` table keyed by its primary key `user_id`. -/
def PrefsDb : Type := Nat → Option Preferences

/-- `get_user_preferences_db` (src/main.py:3031-3046): select by user id. -/
def get_user_preferences_db (db : PrefsDb) (u : Nat) : Option Preferences :=
  db u

/-- The state the INSERT OR REPLACE of `save_user_preferences_db`
(src/main.py:3017-3029) builds inside its open transaction: replace on
primary key `user_id`. -/
def save_user_preferences_db_txn (db : PrefsDb) (u : Nat) (p : Preferences) : PrefsDb :=
  fun v => if v = u then some p else db v

/-- `save_user_preferences_db` (src/main.py:3012-3029): the INSERT OR
REPLACE runs on a `get_db` connection that is closed without commit
(src/main.py:215-222), so the implicit transaction is rolled back and the
committed table is unchanged. -/
def save_user_preferences_db (db : PrefsDb) (_u : Nat) (_p : Preferences) : PrefsDb :=
  db

/-- Temperature comfort check of `check_smart_notifications`
(src/main.py:2321-2330): preference bounds are INTEGER columns, compared
against the float snapshot temperature. -/
def smartTempOf (p : Preferences) : Option ℚ → List String
  | some t =>
      if t < (p.temp_min : ℚ) then ["🌡 Температура ниже комфортной"]
      else if (p.temp_max : ℚ) < t then ["🌡 Температура выше комфортной"]
      else []
  | none => []

/-- Wind comfort check (src/main.py:2332-2335):
`if wind_speed and wind_speed > wind_threshold`. -/
def smartWindOf (p : Preferences) : Option ℚ → List String
  | some s => if s ≠ 0 ∧ (p.wind_threshold : ℚ) < s then ["💨 Ветер сильнее предпочитаемого"] else []
  | none => []

/-- Rain comfort check (src/main.py:2337-2339): fires whenever rain alerts
are enabled and the `rain` key is present. -/
def smartRainOf (p : Preferences) (rain : Option PrecipData) : List String :=
  if p.rain_alerts ∧ rain.isSome then ["☔️ Ожидается дождь"] else []

/-- The effective comfort evaluator `check_smart_notifications`
(src/main.py:2317-2341). -/
def check_smart_notifications (w : WeatherData) (p : Preferences) : List String :=
  smartTempOf p w.tempVal ++ smartWindOf p w.windVal ++ smartRainOf p w.rain

/-- A subscription entry as iterated by the sweeps:
`(city, lat, lon)` (src/main.py:2264-2270). -/
def CityEntry : Type := String × ℚ × ℚ

/-- Message assembled by the smart sweep for one city
(src/main.py:2279-2282). -/
def mkSmartMessage (city : String) (ns : List String) : String :=
  "🎯 Умные уведомления для " ++ city ++ ":\n\n" ++ String.intercalate "\n" ns

/-- Inner loop of the effective smart sweep over one user's cities
(src/main.py:2270-2283): a failed fetch (`get_weather_data` returns
`None`) skips the city, an empty evaluator result suppresses dispatch,
otherwise one message is sent. -/
def smart_sweep_cities (u : Nat) (p : Preferences)
    (fetch : ℚ → ℚ → Option WeatherData) : List CityEntry → List (Nat × String)
  | [] => []
  | (city, lat, lon) :: rest =>
      (match fetch lat lon with
       | none => []
       | some w =>
           let ns := check_smart_notifications w p
           if ns = [] then [] else [(u, mkSmartMessage city ns)]) ++
      smart_sweep_cities u p fetch rest

/-- The effective smart sweep `send_smart_notifications`
(src/main.py:2261-2285; it shadows the hour-filtering definition at line
1720).  It iterates all subscriptions, skips users without a stored
preference record, and consults neither the clock nor
`preference.notification_time`. -/
def send_smart_notifications (prefs : PrefsDb)
    (fetch : ℚ → ℚ → Option WeatherData) : List (Nat × List CityEntry) → List (Nat × String)
  | [] => []
  | (u, cities) :: rest =>
      (match prefs u with
       | none => []
       | some p => smart_sweep_cities u p fetch cities) ++
      send_smart_notifications prefs fetch rest

/-- Preference table holding one user (id 1) whose notification time is
set to 10:00 and whose other settings are the defaults. -/
def c1_prefs : PrefsDb :=
  fun v => if v = 1 then some { default_preferences with notification_time := "10:00" } else none

/-- Weather oracle returning, for every location, a snapshot with
temperature 30 (above the default comfort maximum of 25), no wind data
and no rain. -/
def c1_fetch : ℚ → ℚ → Option WeatherData :=
  fun _ _ => some ⟨some ⟨some 30⟩, none, none, none⟩

/-- C1 (counterexample): the claim asserts that a sweep fired during hour
09 sends nothing to a user whose notification time is "10:00".  The
effective smart sweep takes no clock input at all: at every tick — hour
09 included — the user with notification time "10:00" is dispatched a
message as soon as a comfort rule fires. -/
theorem c1_counterexample :
    send_smart_notifications c1_prefs c1_fetch [(1, [("Moscow", 55, 37)])] =
      [(1, "🎯 Умные уведомления для Moscow:\n\n🌡 Температура выше комфортной")] ∧
    (c1_prefs 1).map Preferences.notification_time = some "10:00" := by
  constructor
  · rfl
  · rfl

/-- Overwrite the stored notification time, keeping every other field. -/
def set_notification_time (p : Preferences) (t : String) : Preferences :=
  { p with notification_time := t }

lemma check_smart_notifications_time_invariant (w : WeatherData) (p : Preferences)
    (t : String) :
    check_smart_notifications w (set_notification_time p t) = check_smart_notifications w p := by
  cases p
  rfl

lemma smart_sweep_cities_time_invariant (u : Nat) (p : Preferences) (t : String)
    (fetch : ℚ → ℚ → Option WeatherData) (cities : List CityEntry) :
    smart_sweep_cities u (set_notification_time p t) fetch cities =
      smart_sweep_cities u p fetch cities := by
  induction cities with
  | nil => rfl
  | cons c rest ih =>
      rcases c with ⟨city, lat, lon⟩
      unfold smart_sweep_cities
      rw [ih]
      congr 1

/-- C1 (amended): the effective smart sweep ignores the stored
notification time entirely — rewriting every user's `notification_time`
to an arbitrary string leaves the dispatched messages unchanged, so a
user set to "10:00" is dispatched exactly as at any other setting, at
every tick regardless of the current hour. -/
theorem c1_amended_sweep_ignores_time (prefs : PrefsDb) (t : String)
    (fetch : ℚ → ℚ → Option WeatherData) (subs : List (Nat × List CityEntry)) :
    send_smart_notifications (fun u => (prefs u).map (fun p => set_notification_time p t)) fetch subs =
      send_smart_notifications prefs fetch subs := by
  induction subs with
  | nil => rfl
  | cons s rest ih =>
      rcases s with ⟨u, cities⟩
      unfold send_smart_notifications
      rw [ih]
      congr 1
      rcases h : prefs u with _ | p
      · rfl
      · exact smart_sweep_cities_time_invariant u p t fetch cities

/-- Result of one sweep: the messages dispatched, and whether the loop ran
to the end (`completed = false` records that an exception escaped the loop
and was caught by the sweep-level handler, src/main.py:2258-2259). -/
structure SweepOutcome where
  sent : List (Nat × String)
  completed : Bool
deriving DecidableEq, Repr

/-- Message assembled by the alert sweep for one city
(src/main.py:2253-2256). -/
def mkAlertMessage (city : String) (alerts : List String) : String :=
  "⚠️ Погодные предупреждения для " ++ city ++ ":\n\n" ++ String.intercalate "\n" alerts

/-- Inner loop of `send_weather_alerts` over one user's cities
(src/main.py:2244-2257) with an injected dispatch oracle `dOk` modelling
whether `bot.send_message` succeeds.  A failed fetch returns `None` and
the loop continues with the next city; a raised dispatch exception
escapes the loop — nothing later in the sweep runs — and is only caught
by the sweep-level handler. -/
def alert_sweep_cities (u : Nat) (fetch : ℚ → ℚ → Option WeatherData)
    (dOk : Nat → String → Bool) : List CityEntry → SweepOutcome
  | [] => ⟨[], true⟩
  | (city, lat, lon) :: rest =>
      match fetch lat lon with
      | none => alert_sweep_cities u fetch dOk rest
      | some w =>
          let alerts := check_weather_alerts w
          if alerts = [] then alert_sweep_cities u fetch dOk rest
          else if dOk u city then
            let r := alert_sweep_cities u fetch dOk rest
            ⟨(u, mkAlertMessage city alerts) :: r.sent, r.completed⟩
          else ⟨[], false⟩

/-- The alert sweep `send_weather_alerts` (src/main.py:2239-2259).  The
single `try` wraps the whole loop, so an aborted inner loop aborts the
remaining users as well; the function always returns (the exception is
caught), which `completed = false` records. -/
def send_weather_alerts (fetch : ℚ → ℚ → Option WeatherData)
    (dOk : Nat → String → Bool) : List (Nat × List CityEntry) → SweepOutcome
  | [] => ⟨[], true⟩
  | (u, cities) :: rest =>
      let r := alert_sweep_cities u fetch dOk cities
      if r.completed then
        let r2 := send_weather_alerts fetch dOk rest
        ⟨r.sent ++ r2.sent, r2.completed⟩
      else r

/-- Inner loop of the effective smart sweep over one user's cities with
the dispatch oracle `dOk` made explicit (src/main.py:2270-2283): a failed
fetch skips the city, an empty evaluator result suppresses dispatch, and
a raised dispatch exception escapes the loop — nothing later in the
sweep runs — and is only caught by the sweep-level handler. -/
def smart_sweep_cities_exc (u : Nat) (p : Preferences)
    (fetch : ℚ → ℚ → Option WeatherData) (dOk : Nat → String → Bool) :
    List CityEntry → SweepOutcome
  | [] => ⟨[], true⟩
  | (city, lat, lon) :: rest =>
      match fetch lat lon with
      | none => smart_sweep_cities_exc u p fetch dOk rest
      | some w =>
          let ns := check_smart_notifications w p
          if ns = [] then smart_sweep_cities_exc u p fetch dOk rest
          else if dOk u city then
            let r := smart_sweep_cities_exc u p fetch dOk rest
            ⟨(u, mkSmartMessage city ns) :: r.sent, r.completed⟩
          else ⟨[], false⟩

/-- The effective smart sweep `send_smart_notifications`
(src/main.py:2261-2285) with the dispatch oracle made explicit.  As in
the alert sweep, the single `try` wraps the whole loop, so an aborted
inner loop aborts the remaining users as well; the function always
returns (the exception is caught at sweep level), which
`completed = false` records. -/
def send_smart_notifications_exc (prefs : PrefsDb)
    (fetch : ℚ → ℚ → Option WeatherData) (dOk : Nat → String → Bool) :
    List (Nat × List CityEntry) → SweepOutcome
  | [] => ⟨[], true⟩
  | (u, cities) :: rest =>
      match prefs u with
      | none => send_smart_notifications_exc prefs fetch dOk rest
      | some p =>
          let r := smart_sweep_cities_exc u p fetch dOk cities
          if r.completed then
            let r2 := send_smart_notifications_exc prefs fetch dOk rest
            ⟨r.sent ++ r2.sent, r2.completed⟩
          else r

lemma smart_sweep_cities_exc_all_ok (u : Nat) (p : Preferences)
    (fetch : ℚ → ℚ → Option WeatherData) (cities : List CityEntry) :
    smart_sweep_cities_exc u p fetch (fun _ _ => true) cities =
      ⟨smart_sweep_cities u p fetch cities, true⟩ := by
  induction cities with
  | nil => rfl
  | cons c rest ih =>
      rcases c with ⟨city, lat, lon⟩
      simp only [smart_sweep_cities_exc, smart_sweep_cities]
      rcases hf : fetch lat lon with _ | w
      · simp [ih]
      · by_cases hns : check_smart_notifications w p = []
        · simp [hns, ih]
        · simp [hns, ih]

lemma send_smart_notifications_exc_all_ok (prefs : PrefsDb)
    (fetch : ℚ → ℚ → Option WeatherData) (subs : List (Nat × List CityEntry)) :
    send_smart_notifications_exc prefs fetch (fun _ _ => true) subs =
      ⟨send_smart_notifications prefs fetch subs, true⟩ := by
  induction subs with
  | nil => rfl
  | cons s rest ih =>
      rcases s with ⟨u, cities⟩
      simp only [send_smart_notifications_exc, send_smart_notifications]
      rcases hp : prefs u with _ | p
      · simp [ih]
      · simp [smart_sweep_cities_exc_all_ok, ih]

/-- Snapshot whose temperature 36 makes the effective alert evaluator
fire the heat alert and the comfort evaluator fire the above-range
notice. -/
def c2_hot : WeatherData := ⟨some ⟨some 36⟩, none, none, none⟩

/-- Fetch oracle that succeeds everywhere with the hot snapshot. -/
def c2_fetch : ℚ → ℚ → Option WeatherData := fun _ _ => some c2_hot

/-- Dispatch oracle that raises exactly on city "A". -/
def c2_dOk : Nat → String → Bool := fun _ city => ¬ city = "A"

/-- Preference table holding user 1 with the default record, for the
smart-sweep half of the counterexample. -/
def c2_smart_prefs : PrefsDb :=
  fun v => if v = 1 then some default_preferences else none

/-- C2 (counterexample): the claim asserts that a dispatch failure for
one (user, location) pair only skips that pair, in the alert sweep and in
the smart sweep alike.  With two subscriptions A and B, both with
rule-triggering snapshots and B's dispatch able to succeed, a dispatch
failure on A leaves B unprocessed in both sweeps: each sweep sends
nothing at all, and neither loop ran to completion. -/
theorem c2_counterexample :
    send_weather_alerts c2_fetch c2_dOk [(1, [("A", 0, 0), ("B", 1, 1)])] =
      ⟨[], false⟩ ∧
    check_weather_alerts c2_hot ≠ [] ∧
    send_smart_notifications_exc c2_smart_prefs c2_fetch c2_dOk
        [(1, [("A", 0, 0), ("B", 1, 1)])] = ⟨[], false⟩ ∧
    check_smart_notifications c2_hot default_preferences ≠ [] ∧
    c2_dOk 1 "B" = true := by
  refine ⟨?_, by decide, ?_, by decide, by decide⟩
  · show (let r := alert_sweep_cities 1 c2_fetch c2_dOk [("A", 0, 0), ("B", 1, 1)];
          if r.completed then
            let r2 := send_weather_alerts c2_fetch c2_dOk [];
            ⟨r.sent ++ r2.sent, r2.completed⟩
          else r) = ⟨[], false⟩
    decide
  · show (match c2_smart_prefs 1 with
          | none => send_smart_notifications_exc c2_smart_prefs c2_fetch c2_dOk []
          | some p =>
              let r := smart_sweep_cities_exc 1 p c2_fetch c2_dOk
                [("A", 0, 0), ("B", 1, 1)];
              if r.completed then
                let r2 := send_smart_notifications_exc c2_smart_prefs c2_fetch c2_dOk [];
                ⟨r.sent ++ r2.sent, r2.completed⟩
              else r) = ⟨[], false⟩
    decide

/-- C2 (amended): in the alert sweep and in the smart sweep alike, a
fetch failure for one (user, location) pair is caught and only that pair
is skipped — the rest of the sweep proceeds exactly as if the pair were
absent — while an evaluation or dispatch exception on a triggering pair
aborts the remainder of the sweep (the result ignores everything after
the failing pair); in all cases the sweep returns instead of raising,
the abort being caught by the sweep-level handler. -/
theorem c2_amended_fetch_isolation :
    (∀ (fetch : ℚ → ℚ → Option WeatherData) (dOk : Nat → String → Bool)
        (u : Nat) (name : String) (lat lon : ℚ) (cs : List CityEntry)
        (rest : List (Nat × List CityEntry)),
      fetch lat lon = none →
        send_weather_alerts fetch dOk ((u, (name, lat, lon) :: cs) :: rest) =
          send_weather_alerts fetch dOk ((u, cs) :: rest)) ∧
    (∀ (prefs : PrefsDb) (fetch : ℚ → ℚ → Option WeatherData)
        (dOk : Nat → String → Bool) (u : Nat) (name : String) (lat lon : ℚ)
        (cs : List CityEntry) (rest : List (Nat × List CityEntry)),
      fetch lat lon = none →
        send_smart_notifications_exc prefs fetch dOk
            ((u, (name, lat, lon) :: cs) :: rest) =
          send_smart_notifications_exc prefs fetch dOk ((u, cs) :: rest)) ∧
    (∀ (fetch : ℚ → ℚ → Option WeatherData) (dOk : Nat → String → Bool)
        (u : Nat) (city : String) (lat lon : ℚ) (rest : List CityEntry)
        (w : WeatherData),
      fetch lat lon = some w → check_weather_alerts w ≠ [] →
        dOk u city = false →
          alert_sweep_cities u fetch dOk ((city, lat, lon) :: rest) =
            ⟨[], false⟩) ∧
    (∀ (p : Preferences) (fetch : ℚ → ℚ → Option WeatherData)
        (dOk : Nat → String → Bool) (u : Nat) (city : String) (lat lon : ℚ)
        (rest : List CityEntry) (w : WeatherData),
      fetch lat lon = some w → check_smart_notifications w p ≠ [] →
        dOk u city = false →
          smart_sweep_cities_exc u p fetch dOk ((city, lat, lon) :: rest) =
            ⟨[], false⟩) := by
  refine ⟨?_, ?_, ?_, ?_⟩
  · intro fetch dOk u name lat lon cs rest h
    simp only [send_weather_alerts, alert_sweep_cities, h]
  · intro prefs fetch dOk u name lat lon cs rest h
    simp only [send_smart_notifications_exc, smart_sweep_cities_exc, h]
  · intro fetch dOk u city lat lon rest w h1 h2 h3
    simp only [alert_sweep_cities, h1]
    rw [if_neg h2, if_neg (by simp [h3])]
  · intro p fetch dOk u city lat lon rest w h1 h2 h3
    simp only [smart_sweep_cities_exc, h1]
    rw [if_neg h2, if_neg (by simp [h3])]

/-- Witness for C2's amended theorem: fetch-failure isolation of the
first pair in both sweeps, and a dispatch abort on city "A" in both
sweeps. -/
theorem c2_amended_witness :
    send_weather_alerts (fun _ _ => none) c2_dOk
        [(1, [("A", 0, 0), ("B", 1, 1)])] =
      send_weather_alerts (fun _ _ => none) c2_dOk [(1, [("B", 1, 1)])] ∧
    send_smart_notifications_exc c2_smart_prefs (fun _ _ => none) c2_dOk
        [(1, [("A", 0, 0), ("B", 1, 1)])] =
      send_smart_notifications_exc c2_smart_prefs (fun _ _ => none) c2_dOk
        [(1, [("B", 1, 1)])] ∧
    alert_sweep_cities 1 c2_fetch c2_dOk [("A", 0, 0), ("B", 1, 1)] =
      ⟨[], false⟩ ∧
    smart_sweep_cities_exc 1 default_preferences c2_fetch c2_dOk
        [("A", 0, 0), ("B", 1, 1)] = ⟨[], false⟩ :=
  ⟨c2_amended_fetch_isolation.1 (fun _ _ => none) c2_dOk 1 "A" 0 0
      [("B", 1, 1)] [] rfl,
    c2_amended_fetch_isolation.2.1 c2_smart_prefs (fun _ _ => none) c2_dOk 1 "A"
      0 0 [("B", 1, 1)] [] rfl,
    c2_amended_fetch_isolation.2.2.1 c2_fetch c2_dOk 1 "A" 0 0 [("B", 1, 1)]
      c2_hot rfl (by decide) (by decide),
    c2_amended_fetch_isolation.2.2.2 default_preferences c2_fetch c2_dOk 1 "A"
      0 0 [("B", 1, 1)] c2_hot rfl (by decide) (by decide)⟩

/-- `RATE_LIMIT = 1  # seconds between requests` (src/main.py:137). -/
def RATE_LIMIT_SECONDS : ℚ := 1

/-- One call through the `rate_limit(limit)` wrapper (src/main.py:160-178)
for user `u` at wall-clock time `now`.  The state is `rate_limit_dict`, a
map from user id to last accepted timestamp defaulting to `0`
(src/main.py:138).  If `now - last < limit` the call is rejected and the
state is untouched; otherwise the timestamp is set to `now` and the
wrapped handler runs. -/
def rate_limit_allow (st : Nat → ℚ) (limit : ℚ) (u : Nat) (now : ℚ) :
    Bool × (Nat → ℚ) :=
  if now - st u < limit then (false, st)
  else (true, fun v => if v = u then now else st v)

/-- C7: with the default 1-second limit, a first call at least one second
after the stored timestamp is accepted and records its time; a second
call within one second of the accepted call is rejected and the recorded
timestamp is left unchanged; a third call at least one second after the
accepted call is accepted again. -/
theorem c7_rate_limiter (st : Nat → ℚ) (u : Nat) (t1 t2 t3 : ℚ)
    (h1 : RATE_LIMIT_SECONDS ≤ t1 - st u)
    (h2 : t2 - t1 < RATE_LIMIT_SECONDS)
    (h3 : RATE_LIMIT_SECONDS ≤ t3 - t1) :
    (rate_limit_allow st RATE_LIMIT_SECONDS u t1).1 = true ∧
    rate_limit_allow (rate_limit_allow st RATE_LIMIT_SECONDS u t1).2
        RATE_LIMIT_SECONDS u t2 =
      (false, (rate_limit_allow st RATE_LIMIT_SECONDS u t1).2) ∧
    (rate_limit_allow (rate_limit_allow st RATE_LIMIT_SECONDS u t1).2
        RATE_LIMIT_SECONDS u t3).1 = true := by
  have hnot1 : ¬ (t1 - st u < RATE_LIMIT_SECONDS) := not_lt.mpr h1
  have hst1 : (rate_limit_allow st RATE_LIMIT_SECONDS u t1).2 =
      fun v => if v = u then t1 else st v := by
    unfold rate_limit_allow
    rw [if_neg hnot1]
  refine ⟨?_, ?_, ?_⟩
  · unfold rate_limit_allow
    rw [if_neg hnot1]
  · rw [hst1]
    unfold rate_limit_allow
    simp [h2]
  · rw [hst1]
    unfold rate_limit_allow
    simp [not_lt.mpr h3]

/-- Witness for C7 at a concrete state and times: the stored timestamp is
0, the calls happen at times 1, 3/2 and 2. -/
theorem c7_rate_limiter_witness :
    (rate_limit_allow (fun _ => 0) RATE_LIMIT_SECONDS 7 1).1 = true ∧
    rate_limit_allow (rate_limit_allow (fun _ => 0) RATE_LIMIT_SECONDS 7 1).2
        RATE_LIMIT_SECONDS 7 (3 / 2) =
      (false, (rate_limit_allow (fun _ => 0) RATE_LIMIT_SECONDS 7 1).2) ∧
    (rate_limit_allow (rate_limit_allow (fun _ => 0) RATE_LIMIT_SECONDS 7 1).2
        RATE_LIMIT_SECONDS 7 2).1 = true :=
  c7_rate_limiter (fun _ => 0) 7 1 (3 / 2) 2 (by norm_num [RATE_LIMIT_SECONDS])
    (by norm_num [RATE_LIMIT_SECONDS]) (by norm_num [RATE_LIMIT_SECONDS])

/-- Outcome of the `/temprange` handler: a successful update or the
validation reply (src/main.py:1866-1885). -/
inductive TempRangeOutcome where
  | ok
  | invalid
deriving DecidableEq, Repr

/-- The `/temprange` handler `temprange_command` (src/main.py:1858-1909)
after integer parsing: rejects `min >= max` and out-of-bounds values
without touching the store, otherwise loads the stored record (or the
default), overwrites `temp_range` and saves the whole record back. -/
def temprange_command (db : PrefsDb) (u : Nat) (minT maxT : Int) :
    TempRangeOutcome × PrefsDb :=
  if maxT ≤ minT then (.invalid, db)
  else if minT < -50 ∨ 50 < maxT then (.invalid, db)
  else
    let prefs := (get_user_preferences_db db u).getD default_preferences
    (.ok, save_user_preferences_db db u
      { prefs with temp_min := minT, temp_max := maxT })

/-- A committed preference table holding user 3 with the default record. -/
def c8_db : PrefsDb := fun v => if v = 3 then some default_preferences else none

/-- C8 (code bug): the handler validates 10 < 20, replies success and
executes the INSERT OR REPLACE, and inside that transaction the record is
the updated one (`save_user_preferences_db_txn`); but the connection is
closed without commit, so reading the store back returns the old record —
not temp_min 10 / temp_max 20 as the handler's own success reply and the
claim state. -/
theorem c8_code_bug :
    (temprange_command c8_db 3 10 20).1 = TempRangeOutcome.ok ∧
    get_user_preferences_db (temprange_command c8_db 3 10 20).2 3 =
      some default_preferences ∧
    get_user_preferences_db (temprange_command c8_db 3 10 20).2 3 ≠
      some { default_preferences with temp_min := 10, temp_max := 20 } ∧
    save_user_preferences_db_txn c8_db 3
        { default_preferences with temp_min := 10, temp_max := 20 } 3 =
      some { default_preferences with temp_min := 10, temp_max := 20 } := by
  refine ⟨by decide, by decide, by decide, by decide⟩

/-- A row of the `weather_stats` table
(src/init_db.py:36-45, primary key `(city, timestamp)`). -/
structure StatRow where
  city : String
  timestamp : Int
  temperature : ℚ
  humidity : Int
  wind_speed : ℚ
deriving DecidableEq, Repr

/-- The state the plain INSERT of `save_weather_stats`
(src/main.py:3053-3056) builds inside its open transaction: the sample is
appended with no trimming of any kind; a duplicate `(city, timestamp)`
primary key makes the INSERT raise `IntegrityError` (`none` here). -/
def save_weather_stats_txn (db : List StatRow) (city : String) (ts : Int)
    (temp : ℚ) (hum : Int) (wind : ℚ) : Option (List StatRow) :=
  if db.any (fun r => r.city == city && r.timestamp == ts) then none
  else some (db ++ [⟨city, ts, temp, hum, wind⟩])

/-- `save_weather_stats` (src/main.py:3048-3056): the INSERT runs on a
`get_db` connection that is closed without commit (src/main.py:215-222),
so the implicit transaction is rolled back and the committed table is
unchanged. -/
def save_weather_stats (db : List StatRow) (_city : String) (_ts : Int)
    (_temp : ℚ) (_hum : Int) (_wind : ℚ) : List StatRow :=
  db

/-- Aggregates returned by `get_weather_stats` (src/main.py:3071-3078). -/
structure WeatherStatsAgg where
  temp_avg : ℚ
  temp_min : ℚ
  temp_max : ℚ
  humidity_avg : ℚ
  wind_speed_avg : ℚ
deriving DecidableEq, Repr

/-- Sum of a list of rationals. -/
def qSum (l : List ℚ) : ℚ := l.foldl (· + ·) 0

/-- Arithmetic mean (SQL AVG) of a nonempty list of rationals. -/
def qAvg (l : List ℚ) : ℚ := qSum l / l.length

/-- SQL MIN over a nonempty column. -/
def qMin (x : ℚ) (l : List ℚ) : ℚ := l.foldl min x

/-- SQL MAX over a nonempty column. -/
def qMax (x : ℚ) (l : List ℚ) : ℚ := l.foldl max x

/-- Rows selected by `get_weather_stats`: `WHERE city = ? AND
timestamp > ?` with the cutoff `now - hours*3600` (src/main.py:3062-3067). -/
def stats_window_rows (db : List StatRow) (city : String) (now : Int)
    (hours : Int) : List StatRow :=
  db.filter (fun r => r.city == city && decide (now - hours * 3600 < r.timestamp))

/-- `get_weather_stats` (src/main.py:3058-3079): aggregates AVG/MIN/MAX
over the rows of the last `hours` hours (the callers pass the default
24); returns `None` when no row qualifies. -/
def get_weather_stats (db : List StatRow) (city : String) (now : Int)
    (hours : Int) : Option WeatherStatsAgg :=
  match stats_window_rows db city now hours with
  | [] => none
  | r :: rs =>
      some
        { temp_avg := qAvg ((r :: rs).map StatRow.temperature),
          temp_min := qMin r.temperature (rs.map StatRow.temperature),
          temp_max := qMax r.temperature (rs.map StatRow.temperature),
          humidity_avg := qAvg ((r :: rs).map (fun x => (x.humidity : ℚ))),
          wind_speed_avg := qAvg ((r :: rs).map StatRow.wind_speed) }

/-- Number of samples stored for a location. -/
def stats_count (db : List StatRow) (city : String) : Nat :=
  (db.filter (fun r => r.city == city)).length

/-- The committed store after 25 `save_weather_stats` calls for one
location with distinct timestamps 0..24, starting from an empty table. -/
def c4_db25 : List StatRow :=
  (List.range 25).foldl
    (fun db i => save_weather_stats db "Moscow" (i : Int) 20 50 3) []

/-- A 24-sample transaction state for one location, timestamps 0..23. -/
def c4_txn_db24 : List StatRow :=
  (List.range 24).map (fun i => ⟨"Moscow", (i : Int), 20, 50, 3⟩)

/-- C4 (counterexample): the claim says each append trims the location to
the 24 most recent samples, so 25 appends should leave exactly 24 with
the earliest evicted.  In the code every INSERT is rolled back when the
uncommitted `get_db` connection closes: after 25 appends the committed
store retains 0 samples, not 24 — and even the state the 25th INSERT
would have built inside its transaction has 25 samples, because no
trimming exists anywhere on the write path. -/
theorem c4_counterexample :
    stats_count c4_db25 "Moscow" = 0 ∧
    stats_count c4_db25 "Moscow" ≠ 24 ∧
    save_weather_stats_txn c4_txn_db24 "Moscow" 24 20 50 3 =
      some (c4_txn_db24 ++ [⟨"Moscow", 24, 20, 50, 3⟩]) ∧
    stats_count (c4_txn_db24 ++ [⟨"Moscow", 24, 20, 50, 3⟩]) "Moscow" = 25 := by
  refine ⟨by decide, by decide, by decide, by decide⟩

lemma stats_window_rows_filter (db : List StatRow) (city : String)
    (now hours : Int) :
    stats_window_rows
        (db.filter (fun r => decide (now - hours * 3600 < r.timestamp)))
        city now hours =
      stats_window_rows db city now hours := by
  unfold stats_window_rows
  induction db with
  | nil => rfl
  | cons r rest ih =>
      by_cases hts : now - hours * 3600 < r.timestamp <;>
        by_cases hc : r.city = city <;>
          simp [List.filter_cons, hts, hc, ih]

/-- C4 (amended): an append never changes the committed store (the INSERT
is rolled back when the uncommitted connection closes), so no sample is
ever retained through this path, let alone trimmed to 24; even inside the
transaction a successful INSERT only ever grows the location's collection
by one (a duplicate `(city, timestamp)` key raises instead); and the only
24-related bound is the read side, where `get_weather_stats` aggregates
over the samples of the last 24 hours — it is unchanged when samples at
or before the 24-hour cutoff are dropped. -/
theorem c4_amended_no_trim :
    (∀ (db : List StatRow) (city : String) (ts : Int) (temp : ℚ) (hum : Int)
        (wind : ℚ),
      stats_count (save_weather_stats db city ts temp hum wind) city =
        stats_count db city) ∧
    (∀ (db : List StatRow) (city : String) (ts : Int) (temp : ℚ) (hum : Int)
        (wind : ℚ) (l : List StatRow),
      save_weather_stats_txn db city ts temp hum wind = some l →
        stats_count l city = stats_count db city + 1) ∧
    (∀ (db : List StatRow) (city : String) (now : Int),
      get_weather_stats db city now 24 =
        get_weather_stats
          (db.filter (fun r => decide (now - 24 * 3600 < r.timestamp)))
          city now 24) := by
  refine ⟨?_, ?_, ?_⟩
  · intro db city ts temp hum wind
    rfl
  · intro db city ts temp hum wind l hl
    unfold save_weather_stats_txn at hl
    split_ifs at hl with hdup
    rw [← Option.some.inj hl]
    unfold stats_count
    rw [List.filter_append]
    simp
  · intro db city now
    unfold get_weather_stats
    rw [stats_window_rows_filter]

/-- Witness for C4's amended theorem at concrete inputs: an append to the
empty committed store leaves it empty, the corresponding transaction
state holds one sample, and the read-side window framing at the empty
store. -/
theorem c4_amended_no_trim_witness :
    stats_count (save_weather_stats [] "Moscow" 0 20 50 3) "Moscow" =
      stats_count [] "Moscow" ∧
    stats_count [(⟨"Moscow", 0, 20, 50, 3⟩ : StatRow)] "Moscow" =
      stats_count [] "Moscow" + 1 ∧
    get_weather_stats [] "Moscow" 0 24 =
      get_weather_stats
        (([] : List StatRow).filter
          (fun r => decide (0 - 24 * 3600 < r.timestamp)))
        "Moscow" 0 24 :=
  ⟨c4_amended_no_trim.1 [] "Moscow" 0 20 50 3,
    c4_amended_no_trim.2.1 [] "Moscow" 0 20 50 3
      [⟨"Moscow", 0, 20, 50, 3⟩] (by decide),
    c4_amended_no_trim.2.2 [] "Moscow" 0⟩

/-- A row of the `subscriptions` table
(src/init_db.py:12-20, primary key `(user_id, city)`). -/
structure SubRow where
  user_id : Nat
  city : String
  lat : ℚ
  lon : ℚ
deriving DecidableEq, Repr

/-- `get_user_subscriptions` (src/main.py:3005-3010): SELECT city, lat,
lon WHERE user_id = ?, in insertion order. -/
def get_user_subscriptions (db : List SubRow) (u : Nat) : List (String × ℚ × ℚ) :=
  (db.filter (fun r => r.user_id == u)).map (fun r => (r.city, r.lat, r.lon))

/-- The state the INSERT OR REPLACE of `save_subscription`
(src/main.py:3000-3003) builds inside its open transaction: any existing
row with the exact same `(user_id, city)` primary key is deleted and the
fresh row inserted. -/
def save_subscription_txn (db : List SubRow) (u : Nat) (city : String)
    (lat lon : ℚ) : List SubRow :=
  db.filter (fun r => !(r.user_id == u && r.city == city)) ++ [⟨u, city, lat, lon⟩]

/-- `save_subscription` (src/main.py:2996-3003): the INSERT OR REPLACE
runs on a `get_db` connection that is closed without commit
(src/main.py:215-222), so the implicit transaction is rolled back and the
committed table is unchanged. -/
def save_subscription (db : List SubRow) (_u : Nat) (_city : String)
    (_lat _lon : ℚ) : List SubRow :=
  db

/-- The state the DELETE of the unsubscribe handler
(src/main.py:1461-1466) builds inside its open transaction: the exact
`(user_id, city)` row removed. -/
def delete_subscription_txn (db : List SubRow) (u : Nat) (city : String) :
    List SubRow :=
  db.filter (fun r => !(r.user_id == u && r.city == city))

/-- Python `str.lower()` as used on city names (src/main.py:1369, 1458):
character-wise lowercasing (exact on the ASCII range). -/
def str_lower (s : String) : String := ⟨s.data.map Char.toLower⟩

/-- The three outcomes of the effective `/subscribe` handler
(src/main.py:1363-1383). -/
inductive SubscribeOutcome where
  | added
  | alreadySubscribed
  | capExceeded
deriving DecidableEq, Repr

/-- The effective `/subscribe` handler `subscribe_command`
(src/main.py:1338-1432, the first registered handler) after the location
was geocoded to `(city, lat, lon)`.  The handler loads the user's
subscriptions once into a local variable; the case-insensitive duplicate
check answers already-subscribed without mutating, the 5-subscription cap
check answers cap-exceeded without mutating, and otherwise the row is
persisted. -/
def subscribe_command (db : List SubRow) (u : Nat) (city : String)
    (lat lon : ℚ) : SubscribeOutcome × List SubRow :=
  if (get_user_subscriptions db u).any (fun s => str_lower s.1 == str_lower city) then
    (.alreadySubscribed, db)
  else if 5 ≤ (get_user_subscriptions db u).length then
    (.capExceeded, db)
  else
    (.added, save_subscription db u city lat lon)

/-- The effective `/unsubscribe` handler `unsubscribe_command`
(src/main.py:1437-1475): finds the first case-insensitive match among the
user's subscriptions and runs a DELETE for that exact `(user_id, city)`
row, replying with the stored name; the DELETE's connection is closed
without commit (src/main.py:215-222), so the committed table is
unchanged. -/
def unsubscribe_command (db : List SubRow) (u : Nat) (city : String) :
    Option String × List SubRow :=
  if (get_user_subscriptions db u).isEmpty then (none, db)
  else
    match (get_user_subscriptions db u).find? (fun s => str_lower s.1 == str_lower city) with
    | some s => (some s.1, db)
    | none => (none, db)

/-- One store-mutating request: a subscribe (after geocoding) or an
unsubscribe. -/
inductive SubOp where
  | sub (u : Nat) (city : String) (lat lon : ℚ)
  | unsub (u : Nat) (city : String)

/-- Run a sequence of subscribe/unsubscribe requests against the store. -/
def run_sub_ops : List SubRow → List SubOp → List SubRow
  | db, [] => db
  | db, SubOp.sub u c la lo :: rest => run_sub_ops (subscribe_command db u c la lo).2 rest
  | db, SubOp.unsub u c :: rest => run_sub_ops (unsubscribe_command db u c).2 rest

/-- Number of subscriptions stored for a user. -/
def countSubs (db : List SubRow) (u : Nat) : Nat :=
  (get_user_subscriptions db u).length

/-- Number of the user's subscriptions matching a city name
case-insensitively. -/
def countCityCI (db : List SubRow) (u : Nat) (city : String) : Nat :=
  ((get_user_subscriptions db u).filter (fun s => str_lower s.1 == str_lower city)).length

lemma countSubs_eq (db : List SubRow) (u : Nat) :
    countSubs db u = (db.filter (fun r => r.user_id == u)).length := by
  unfold countSubs get_user_subscriptions
  rw [List.length_map]

lemma subscribe_command_snd (db : List SubRow) (u : Nat) (city : String)
    (lat lon : ℚ) :
    (subscribe_command db u city lat lon).2 = db := by
  unfold subscribe_command
  split_ifs <;> rfl

lemma unsubscribe_command_snd (db : List SubRow) (u : Nat) (city : String) :
    (unsubscribe_command db u city).2 = db := by
  unfold unsubscribe_command
  split_ifs with h1
  · rfl
  · rcases hf : (get_user_subscriptions db u).find?
        (fun s => str_lower s.1 == str_lower city) with _ | s
    · rw [hf]
    · rw [hf]

lemma run_sub_ops_id (ops : List SubOp) :
    ∀ db : List SubRow, run_sub_ops db ops = db := by
  induction ops with
  | nil => intro db; rfl
  | cons op rest ih =>
      intro db
      cases op with
      | sub u c la lo =>
          simp only [run_sub_ops, subscribe_command_snd]
          exact ih db
      | unsub u c =>
          simp only [run_sub_ops, unsubscribe_command_snd]
          exact ih db

/-- C5: starting from an empty store, no sequence of subscribe and
unsubscribe requests ever brings a user above 5 stored subscriptions
(the cap check bounds what the handler would persist, and the missing
commit means the committed count in fact never changes at all), and a
subscribe request for a new city by a user whose committed store already
holds 5 rows answers cap-exceeded and leaves the store untouched. -/
theorem c5_subscription_cap :
    (∀ (ops : List SubOp) (u : Nat), countSubs (run_sub_ops [] ops) u ≤ 5) ∧
    (∀ (db : List SubRow) (u : Nat) (city : String) (lat lon : ℚ),
      countSubs db u = 5 →
      (get_user_subscriptions db u).any (fun s => str_lower s.1 == str_lower city) = false →
      subscribe_command db u city lat lon = (SubscribeOutcome.capExceeded, db)) := by
  constructor
  · intro ops u
    rw [run_sub_ops_id]
    rw [countSubs_eq]
    simp
  · intro db u city lat lon hcount hno
    unfold subscribe_command
    rw [if_neg (by rw [hno]; exact Bool.false_ne_true), if_pos ?_]
    unfold countSubs at hcount
    omega

/-- Witness for C5: six subscribe requests by user 1 for six distinct
cities leave at most 5 stored, and a concrete 5-subscription store
answers a 6th distinct city with cap-exceeded, unchanged. -/
theorem c5_subscription_cap_witness :
    countSubs
        (run_sub_ops []
          [SubOp.sub 1 "A" 0 0, SubOp.sub 1 "B" 0 0, SubOp.sub 1 "C" 0 0,
           SubOp.sub 1 "D" 0 0, SubOp.sub 1 "E" 0 0, SubOp.sub 1 "F" 0 0]) 1 ≤ 5 ∧
    subscribe_command
        [⟨1, "A", 0, 0⟩, ⟨1, "B", 0, 0⟩, ⟨1, "C", 0, 0⟩, ⟨1, "D", 0, 0⟩,
         ⟨1, "E", 0, 0⟩] 1 "F" 0 0 =
      (SubscribeOutcome.capExceeded,
        [⟨1, "A", 0, 0⟩, ⟨1, "B", 0, 0⟩, ⟨1, "C", 0, 0⟩, ⟨1, "D", 0, 0⟩,
         ⟨1, "E", 0, 0⟩]) :=
  ⟨c5_subscription_cap.1
      [SubOp.sub 1 "A" 0 0, SubOp.sub 1 "B" 0 0, SubOp.sub 1 "C" 0 0,
       SubOp.sub 1 "D" 0 0, SubOp.sub 1 "E" 0 0, SubOp.sub 1 "F" 0 0] 1,
    c5_subscription_cap.2
      [⟨1, "A", 0, 0⟩, ⟨1, "B", 0, 0⟩, ⟨1, "C", 0, 0⟩, ⟨1, "D", 0, 0⟩,
       ⟨1, "E", 0, 0⟩] 1 "F" 0 0 (by decide) (by decide)⟩

/-- C6 (code bug): the handler's case-insensitive duplicate check and
already-subscribed reply are in the code, but the INSERT of the first
subscribe is rolled back when the uncommitted `get_db` connection closes,
so the check never sees the row: on a fresh store, user 1 subscribing to
"Moscow" and then to "MOSCOW" is answered `added` both times, and the
committed store retains zero subscriptions — not exactly one reported
already-subscribed.  The last conjunct shows the first INSERT did build
the row inside its transaction; only the commit is missing. -/
theorem c6_code_bug :
    (subscribe_command [] 1 "Moscow" 55 37).1 = SubscribeOutcome.added ∧
    (subscribe_command (subscribe_command [] 1 "Moscow" 55 37).2
        1 "MOSCOW" 55 37).1 = SubscribeOutcome.added ∧
    (subscribe_command (subscribe_command [] 1 "Moscow" 55 37).2
        1 "MOSCOW" 55 37).2 = [] ∧
    countCityCI (subscribe_command (subscribe_command [] 1 "Moscow" 55 37).2
        1 "MOSCOW" 55 37).2 1 "Moscow" = 0 ∧
    save_subscription_txn [] 1 "Moscow" 55 37 = [⟨1, "Moscow", 55, 37⟩] := by
  refine ⟨by decide, by decide, by decide, by decide, by decide⟩

/-- Optimal conditions for one activity, an entry of the static
`ACTIVITIES` catalog (src/main.py:260-285). -/
structure ActivityConditions where
  temp_min : ℚ
  temp_max : ℚ
  wind_max : ℚ
  no_rain : Bool
  description : String
deriving DecidableEq, Repr

/-- The static activity catalog `ACTIVITIES` (src/main.py:260-285). -/
def ACTIVITIES : List (String × ActivityConditions) :=
  [("running", ⟨5, 20, 5, true, "бега"⟩),
   ("cycling", ⟨10, 25, 7, true, "велопрогулки"⟩),
   ("walking", ⟨15, 25, 10, true, "прогулки"⟩),
   ("picnic", ⟨20, 27, 5, true, "пикника"⟩)]

/-- Dictionary lookup `ACTIVITIES[activity]` guarded by
`activity in ACTIVITIES` (src/main.py:1700-1703). -/
def lookupActivity (a : String) : Option ActivityConditions :=
  (ACTIVITIES.find? (fun e => e.1 == a)).map Prod.snd

/-- The suitability test of `check_activity_conditions`
(src/main.py:1706-1708): temperature within the activity's range, wind
at most `wind_max`, and either rain is allowed or none is falling. -/
def activityOk (temp wind : ℚ) (isRain : Bool) (c : ActivityConditions) : Prop :=
  c.temp_min ≤ temp ∧ temp ≤ c.temp_max ∧ wind ≤ c.wind_max ∧
    (c.no_rain = false ∨ isRain = false)

instance (temp wind : ℚ) (isRain : Bool) (c : ActivityConditions) :
    Decidable (activityOk temp wind isRain c) := by
  unfold activityOk
  infer_instance

/-- The collection loop of `check_activity_conditions`
(src/main.py:1697-1709): activities missing from the catalog are skipped,
suitable ones contribute their description, in order. -/
def suitable_activities (temp wind : ℚ) (isRain : Bool)
    (acts : List String) : List String :=
  acts.filterMap (fun a =>
    (lookupActivity a).bind (fun c =>
      if activityOk temp wind isRain c then some c.description else none))

/-- The pure core of `check_activity_conditions` (src/main.py:1684-1717)
after the snapshot was fetched: `temp`, `wind` and `isRain` are the
extracted `temp`, `wind_speed` and `'rain' in weather_data`; one combined
message is produced when at least one activity is suitable, otherwise
`None`. -/
def check_activity_conditions (city : String) (temp wind : ℚ)
    (isRain : Bool) (acts : List String) : Option String :=
  if suitable_activities temp wind isRain acts = [] then none
  else
    some ("🎯 Отличные условия в " ++ city ++ " для: " ++
      String.intercalate ", " (suitable_activities temp wind isRain acts) ++ "!")

/-- The catalog's profiles. -/
def activity_profiles : List ActivityConditions := ACTIVITIES.map Prod.snd

lemma lookupActivity_mem (a : String) (c : ActivityConditions)
    (h : lookupActivity a = some c) : c ∈ activity_profiles := by
  unfold lookupActivity at h
  rcases hf : ACTIVITIES.find? (fun e => e.1 == a) with _ | e
  · rw [hf] at h
    exact absurd h (by simp)
  · rw [hf] at h
    simp only [Option.map_some'] at h
    have hmem := List.mem_of_find?_eq_some hf
    rw [← Option.some.inj h]
    exact List.mem_map.mpr ⟨e, hmem, rfl⟩

lemma activity_description_inj :
    ∀ c1 ∈ activity_profiles, ∀ c2 ∈ activity_profiles,
      c1.description = c2.description → c1 = c2 := by decide

lemma mem_suitable_iff (temp wind : ℚ) (isRain : Bool) (acts : List String)
    (d : String) :
    d ∈ suitable_activities temp wind isRain acts ↔
      ∃ a ∈ acts, ∃ c, lookupActivity a = some c ∧
        activityOk temp wind isRain c ∧ c.description = d := by
  unfold suitable_activities
  rw [List.mem_filterMap]
  constructor
  · rintro ⟨a, ha, hf⟩
    rcases hl : lookupActivity a with _ | c
    · rw [hl] at hf
      exact absurd hf (by simp)
    · rw [hl] at hf
      simp only [Option.some_bind] at hf
      by_cases hok : activityOk temp wind isRain c
      · rw [if_pos hok] at hf
        exact ⟨a, ha, c, hl, hok, Option.some.inj hf⟩
      · rw [if_neg hok] at hf
        exact absurd hf (by simp)
  · rintro ⟨a, ha, c, hl, hok, hd⟩
    refine ⟨a, ha, ?_⟩
    rw [hl]
    simp only [Option.some_bind, if_pos hok, hd]

/-- C9: an activity of the user's list that has a catalog profile is
collected exactly when the snapshot temperature lies within the profile's
range, the wind is at most `wind_max`, and either rain is allowed or no
rain is falling; a non-empty collection produces the single combined
"suitable for" message listing all matches; and the concrete snapshot
(temp 10, wind 3, no rain) with activity "running" yields exactly the
suitable-for-running message. -/
theorem c9_activity_suitability (temp wind : ℚ) (isRain : Bool)
    (acts : List String) (city a : String) (c : ActivityConditions)
    (ha : a ∈ acts) (hl : lookupActivity a = some c) :
    (c.description ∈ suitable_activities temp wind isRain acts ↔
      (c.temp_min ≤ temp ∧ temp ≤ c.temp_max ∧ wind ≤ c.wind_max ∧
        (c.no_rain = false ∨ isRain = false))) ∧
    (suitable_activities temp wind isRain acts ≠ [] →
      check_activity_conditions city temp wind isRain acts =
        some ("🎯 Отличные условия в " ++ city ++ " для: " ++
          String.intercalate ", " (suitable_activities temp wind isRain acts) ++ "!")) ∧
    check_activity_conditions "Moscow" 10 3 false ["running"] =
      some "🎯 Отличные условия в Moscow для: бега!" := by
  refine ⟨?_, ?_, by decide⟩
  · rw [mem_suitable_iff]
    constructor
    · rintro ⟨a2, ha2, c2, hl2, hok2, hd2⟩
      have hc2 : c2 ∈ activity_profiles := lookupActivity_mem a2 c2 hl2
      have hc : c ∈ activity_profiles := lookupActivity_mem a c hl
      have heq : c2 = c := activity_description_inj c2 hc2 c hc hd2
      rw [heq] at hok2
      exact hok2
    · intro hok
      exact ⟨a, ha, c, hl, hok, rfl⟩
  · intro hne
    unfold check_activity_conditions
    rw [if_neg hne]

/-- Witness for C9 at the concrete snapshot (temp 10, wind 3, no rain)
and the running profile. -/
theorem c9_activity_suitability_witness :
    (("бега" : String) ∈ suitable_activities 10 3 false ["running"] ↔
      ((5 : ℚ) ≤ 10 ∧ (10 : ℚ) ≤ 20 ∧ (3 : ℚ) ≤ 5 ∧
        (true = false ∨ false = false))) ∧
    (suitable_activities 10 3 false ["running"] ≠ [] →
      check_activity_conditions "Moscow" 10 3 false ["running"] =
        some ("🎯 Отличные условия в " ++ "Moscow" ++ " для: " ++
          String.intercalate ", " (suitable_activities 10 3 false ["running"]) ++ "!")) ∧
    check_activity_conditions "Moscow" 10 3 false ["running"] =
      some "🎯 Отличные условия в Moscow для: бега!" :=
  c9_activity_suitability 10 3 false ["running"] "Moscow" "running"
    ⟨5, 20, 5, true, "бега"⟩ (by decide) (by decide)
